import Mathlib

/-!
Shallow embedding of the `smart_open` capability-negotiation core:
`src/smart_open/io_utils.py` (mode codec, codec selector) and
`src/smart_open/plugins.py` (plugin loader and registry).

Conventions of the embedding:
* Python `int` bitfields become `Nat` (all the `os.O_*` constants involved are
  non-negative); `&`, `|` become `&&&`, `|||`.
* The `os.O_*` constants carry their POSIX (Linux) values; `O_BINARY` and
  `O_TEXT` do not exist on POSIX, so `getattr(os, "O_BINARY", 0)` is the
  constant `0`, and likewise for `O_TEXT`.
* Fallible Python code returns `Except PyError` / `Except NoSuchPluginError`.
* Python truthiness of `x or y` over ints/bools is modelled by the Boolean
  disjunction of the operands' truthiness tests.
-/

/-- POSIX value of `os.O_RDONLY`. -/
def O_RDONLY : Nat := 0
/-- POSIX value of `os.O_WRONLY`. -/
def O_WRONLY : Nat := 1
/-- POSIX value of `os.O_RDWR`. -/
def O_RDWR : Nat := 2
/-- POSIX (Linux) value of `os.O_CREAT`. -/
def O_CREAT : Nat := 64
/-- POSIX (Linux) value of `os.O_EXCL`. -/
def O_EXCL : Nat := 128
/-- POSIX (Linux) value of `os.O_TRUNC`. -/
def O_TRUNC : Nat := 512
/-- POSIX (Linux) value of `os.O_APPEND`. -/
def O_APPEND : Nat := 1024
/-- `getattr(os, "O_BINARY", 0)` on POSIX: the attribute is absent, so 0. -/
def O_BINARY : Nat := 0
/-- `getattr(os, "O_TEXT", 0)` on POSIX: the attribute is absent, so 0. -/
def O_TEXT : Nat := 0

/-- `_FLAGS_RONLY = os.O_RDONLY` (io_utils.py line 11). -/
def FLAGS_RONLY : Nat := O_RDONLY
/-- `_FLAGS_RPLUS = os.O_RDWR` (line 12). -/
def FLAGS_RPLUS : Nat := O_RDWR
/-- `_FLAGS_WONLY = os.O_WRONLY | os.O_CREAT | os.O_TRUNC` (line 13). -/
def FLAGS_WONLY : Nat := O_WRONLY ||| O_CREAT ||| O_TRUNC
/-- `_FLAGS_WPLUS = os.O_RDWR | os.O_CREAT | os.O_TRUNC` (line 14). -/
def FLAGS_WPLUS : Nat := O_RDWR ||| O_CREAT ||| O_TRUNC
/-- `_FLAGS_AONLY = os.O_APPEND | os.O_WRONLY | os.O_CREAT` (line 15). -/
def FLAGS_AONLY : Nat := O_APPEND ||| O_WRONLY ||| O_CREAT
/-- `_FLAGS_APLUS = os.O_APPEND | os.O_RDWR | os.O_CREAT` (line 16). -/
def FLAGS_APLUS : Nat := O_APPEND ||| O_RDWR ||| O_CREAT

/-- The Python exceptions the embedded io_utils code can raise. -/
inductive PyError where
  | valueError (msg : String)
  | indexError (msg : String)
deriving DecidableEq, Repr

/-- Python `c in s` for a single-character needle `c`: character membership. -/
def strContains (s : String) (c : Char) : Bool := s.data.contains c

/-- `io_mode_string_to_flags` (io_utils.py lines 19-81).  `string[0]` on an
empty string raises `IndexError` in Python, modelled by the `indexError`
branch. -/
def io_mode_string_to_flags (string : String) : Except PyError Nat := do
  let flags0 ←
    if strContains string 'b' then
      if strContains string 'U' || strContains string 't' then
        Except.error (PyError.valueError
          ("Mode string specifies binary and text mode at the same time: " ++ string))
      else
        pure O_BINARY
    else
      pure O_TEXT
  let first ←
    match string.data with
    | [] => Except.error (PyError.indexError "string index out of range")
    | c :: _ => pure c
  let flags1 ←
    if first = 'r' then
      pure (flags0 ||| (if strContains string '+' then FLAGS_RPLUS else FLAGS_RONLY))
    else if first = 'w' then
      pure (flags0 ||| (if strContains string '+' then FLAGS_WPLUS else FLAGS_WONLY))
    else if first = 'a' then
      pure (flags0 ||| (if strContains string '+' then FLAGS_APLUS else FLAGS_AONLY))
    else
      Except.error (PyError.valueError
        ("Mode string must have r, w, or a as the first character: " ++ string))
  pure (if strContains string 'x' then flags1 ||| O_EXCL else flags1)

/-- `io_mode_flags_to_string` (io_utils.py lines 84-124). -/
def io_mode_flags_to_string (flags : Nat) (binary : Bool) : Except PyError String := do
  let mode ←
    if flags &&& FLAGS_WPLUS = FLAGS_WPLUS then pure "w+"
    else if flags &&& FLAGS_WONLY = FLAGS_WONLY then pure "w"
    else if flags &&& FLAGS_APLUS = FLAGS_APLUS then pure "a+"
    else if flags &&& FLAGS_RPLUS = FLAGS_RPLUS then pure "r+"
    else if flags &&& FLAGS_RONLY = FLAGS_RONLY then pure "r"
    else Except.error (PyError.valueError "Do not know how to convert flags")
  let mode := if flags &&& O_EXCL != 0 then mode ++ "x" else mode
  let mode := if (flags &&& O_BINARY != 0) || binary then mode ++ "b" else mode
  pure mode

/-- The state of an `IOMode` object: `_flags` and `_is_binary`
(io_utils.py lines 138-141). -/
structure IOMode where
  flags : Nat
  is_binary : Bool
deriving DecidableEq, Repr

/-- `IOMode.__init__` (lines 138-141): parse the mode string, record whether
`"b" in mode`. -/
def IOMode.ofString (mode : String) : Except PyError IOMode := do
  let flags ← io_mode_string_to_flags mode
  pure { flags := flags, is_binary := strContains mode 'b' }

/-- `IOMode.text` property (lines 143-147). -/
def IOMode.text (m : IOMode) : Bool := !m.is_binary

/-- `IOMode.binary` property (lines 149-153). -/
def IOMode.binary (m : IOMode) : Bool := m.is_binary

/-- `IOMode.read` property (lines 155-159):
`(self._flags & os.O_RDONLY) or (self._flags & os.O_RDWR) != 0`.
Truthiness of the Python `or`: the left operand is an int, truthy when
non-zero; the right operand is already a bool. -/
def IOMode.read (m : IOMode) : Bool :=
  (m.flags &&& O_RDONLY != 0) || (m.flags &&& O_RDWR != 0)

/-- `IOMode.write` property (lines 161-165), same truthiness convention. -/
def IOMode.write (m : IOMode) : Bool :=
  (m.flags &&& O_WRONLY != 0) || (m.flags &&& O_RDWR != 0)

/-- `IOMode.append` property (lines 167-171). -/
def IOMode.append (m : IOMode) : Bool := m.flags &&& O_APPEND != 0

/-- `IOMode.create` property (lines 173-176). -/
def IOMode.create (m : IOMode) : Bool := m.flags &&& O_CREAT != 0

/-- `IOMode.excl` property (lines 178-186). -/
def IOMode.excl (m : IOMode) : Bool := m.flags &&& O_EXCL != 0

/-- `IOMode.truncate` property (lines 188-192). -/
def IOMode.truncate (m : IOMode) : Bool := m.flags &&& O_TRUNC != 0

/-- Python `str.rfind` for a single character over a character list: the last
index holding `c`, or -1 when absent. -/
def rfindAux (l : List Char) (c : Char) (i : Int) (acc : Int) : Int :=
  match l with
  | [] => acc
  | x :: xs => rfindAux xs c (i + 1) (if x = c then i else acc)

/-- `p.rfind(c)` with `p` a string, as used by `posixpath.splitext`. -/
def rfind (p : String) (c : Char) : Int := rfindAux p.data c 0 (-1)

/-- `posixpath.splitext` (CPython `genericpath._splitext` with `sep = '/'`,
`extsep = '.'`, no `altsep`): split off the extension of the final path
element, where the extension starts at the last dot, except that leading dots
of the basename never start an extension. -/
def splitext (p : String) : String × String :=
  let chars := p.data
  let sepIndex := rfind p '/'
  let dotIndex := rfind p '.'
  if sepIndex < dotIndex then
    -- the while loop: split iff some character strictly between the
    -- basename start and the last dot is not itself a dot
    let fnStart := (sepIndex + 1).toNat
    let dotN := dotIndex.toNat
    if (List.range' fnStart (dotN - fnStart)).any (fun i => chars.getD i '.' != '.') then
      (String.mk (chars.take dotN), String.mk (chars.drop dotN))
    else
      (p, "")
  else
    (p, "")

/-- A plugin class, as delivered by `entry_point.load()`: modelled as an
opaque identifier. -/
abbrev PluginClass := Nat

/-- An instantiated plugin, the result of calling `plugin_class()` with no
arguments (plugins.py line 275). -/
structure PluginInstance where
  cls : PluginClass
deriving DecidableEq, Repr

/-- The payload of a `PluginConflictWarning` (plugins.py lines 190-217). -/
structure PluginConflictWarning where
  protocol : String
  plugin_kind : String
  existing_class : PluginClass
  conflicting_class : PluginClass
deriving DecidableEq, Repr

/-- `NoSuchPluginError` (plugins.py lines 220-236): raised as
`NoSuchPluginError(plugin_name, self.namespace)`, so `entry_point` holds the
registry's namespace. -/
structure NoSuchPluginError where
  name : String
  entry_point : String
deriving DecidableEq, Repr

/-- Python dict lookup over an insertion-ordered association list. -/
def lookupAssoc {α : Type} (l : List (String × α)) (k : String) : Option α :=
  match l with
  | [] => none
  | (k', v) :: rest => if k' = k then some v else lookupAssoc rest k

/-- The `for entry_point in pkg_resources.iter_entry_points(...)` loop of
`discover_plugins` (plugins.py lines 259-272): `unloaded` is the
insertion-ordered dict `unloaded_plugins`, `warns` the warnings emitted so
far. -/
def discoverLoop (kind : String) (eps : List (String × PluginClass))
    (unloaded : List (String × PluginClass)) (warns : List PluginConflictWarning) :
    List (String × PluginClass) × List PluginConflictWarning :=
  match eps with
  | [] => (unloaded, warns)
  | (name, cls) :: rest =>
    match lookupAssoc unloaded name with
    | none => discoverLoop kind rest (unloaded ++ [(name, cls)]) warns
    | some existing =>
        discoverLoop kind rest unloaded
          (warns ++ [{ protocol := name, plugin_kind := kind,
                       existing_class := existing, conflicting_class := cls }])

/-- The outcome of one discovery pass: the returned dict, the warnings the
pass emitted, and (instrumentation) the classes on which the final dict
comprehension `plugin_class()` calls the constructor. -/
structure DiscoverResult where
  plugins : List (String × PluginInstance)
  warnings : List PluginConflictWarning
  instantiated : List PluginClass
deriving DecidableEq, Repr

/-- `discover_plugins` (plugins.py lines 239-276): run the loop starting from
the empty dict, then instantiate every retained class. -/
def discover_plugins (eps : List (String × PluginClass)) (plugin_kind : String) :
    DiscoverResult :=
  let r := discoverLoop plugin_kind eps [] []
  { plugins := r.1.map (fun e => (e.1, PluginInstance.mk e.2)),
    warnings := r.2,
    instantiated := r.1.map (fun e => e.2) }

/-- The attrs state of a `PluginRegistry` (plugins.py lines 279-307).  The
`namespace` attribute is renamed `nspace` (`namespace` is a Lean keyword);
`_registry` is `none` before the first load.  The external entry-point source
(`pkg_resources`) is passed to each method as the explicit argument `eps`. -/
structure PluginRegistry where
  nspace : String
  plugin_type : String
  registry : Option (List (String × PluginInstance))
deriving DecidableEq, Repr

/-- `PluginRegistry.load_registered_plugins` (plugins.py lines 309-323).  The
returned Bool is instrumentation: `true` exactly when the
`discover_plugins` branch ran. -/
def PluginRegistry.load_registered_plugins (self : PluginRegistry)
    (eps : List (String × PluginClass)) (force : Bool) : PluginRegistry × Bool :=
  if self.registry.isNone || force then
    ({ self with registry := some (discover_plugins eps self.plugin_type).plugins }, true)
  else
    (self, false)

/-- `PluginRegistry.get_plugin` (plugins.py lines 325-342): lazy-load, then
look the name up, raising `NoSuchPluginError(plugin_name, self.namespace)`
when absent.  After `load_registered_plugins` the registry is always
populated, so the `getD []` default is dead code. -/
def PluginRegistry.get_plugin (self : PluginRegistry)
    (eps : List (String × PluginClass)) (plugin_name : String) :
    Except NoSuchPluginError PluginInstance × PluginRegistry :=
  let loaded := (self.load_registered_plugins eps false).1
  match lookupAssoc (loaded.registry.getD []) plugin_name with
  | none => (Except.error { name := plugin_name, entry_point := self.nspace }, loaded)
  | some inst => (Except.ok inst, loaded)

/-- `PluginRegistry.has_plugin` (plugins.py lines 344-367): lazy-load, then
`plugin_name in self._registry`. -/
def PluginRegistry.has_plugin (self : PluginRegistry)
    (eps : List (String × PluginClass)) (plugin_name : String) :
    Bool × PluginRegistry :=
  let loaded := (self.load_registered_plugins eps false).1
  ((lookupAssoc (loaded.registry.getD []) plugin_name).isSome, loaded)

/-- `get_compression_plugin` (io_utils.py lines 203-220):
`posixpath.splitext(uri.uri_path)[-1]` is the extension (with its leading
dot); the `COMPRESSION_PLUGINS` registry is passed explicitly, and
`NoSuchPluginError` is caught and turned into `none`. -/
def get_compression_plugin (compression_plugins : PluginRegistry)
    (eps : List (String × PluginClass)) (uri_path : String) :
    Option PluginInstance × PluginRegistry :=
  let extension := (splitext uri_path).2
  match compression_plugins.get_plugin eps extension with
  | (Except.ok p, st) => (some p, st)
  | (Except.error _, st) => (none, st)

/-- A loaded-but-empty compression registry: a concrete state distinguishing
"loaded, empty" (`some []`) from "not yet loaded" (`none`). -/
def emptyLoadedRegistry : PluginRegistry :=
  { nspace := "compression", plugin_type := "compression codec", registry := some [] }

/-- A compression registry whose loaded mapping binds the dotted extension
".gz", matching the key `get_compression_plugin` actually looks up. -/
def dottedRegistry : PluginRegistry :=
  { nspace := "compression", plugin_type := "compression codec",
    registry := some [(".gz", PluginInstance.mk 7)] }

/-! ## Helper lemmas about association-list lookup and the discovery loop -/

/-- Registry hypothesis `self._registry is not None` makes
`load_registered_plugins(force=False)` a no-op. -/
theorem load_of_some (reg : PluginRegistry) (eps : List (String × PluginClass))
    (m : List (String × PluginInstance)) (h : reg.registry = some m) :
    reg.load_registered_plugins eps false = (reg, false) := by
  unfold PluginRegistry.load_registered_plugins
  simp [h]

/-- `get_plugin` in closed form: a lookup in the lazily-loaded mapping paired
with the post-load state. -/
theorem get_plugin_eq (reg : PluginRegistry) (eps : List (String × PluginClass)) (n : String) :
    reg.get_plugin eps n =
      ((match lookupAssoc (((reg.load_registered_plugins eps false).1).registry.getD []) n with
        | none => Except.error { name := n, entry_point := reg.nspace }
        | some p => Except.ok p),
       (reg.load_registered_plugins eps false).1) := by
  unfold PluginRegistry.get_plugin
  cases h : lookupAssoc (((reg.load_registered_plugins eps false).1).registry.getD []) n <;>
    simp [h]

/-- Lookup distributes over append: the left list wins. -/
theorem lookupAssoc_append {α : Type} (l1 l2 : List (String × α)) (k : String) :
    lookupAssoc (l1 ++ l2) k =
      match lookupAssoc l1 k with
      | some v => some v
      | none => lookupAssoc l2 k := by
  induction l1 with
  | nil => simp [lookupAssoc]
  | cons a rest ih =>
    obtain ⟨k', v⟩ := a
    by_cases h : k' = k <;> simp [lookupAssoc, h, ih]

/-- A key absent from the key list looks up to `none`. -/
theorem lookupAssoc_eq_none {α : Type} (l : List (String × α)) (k : String)
    (h : k ∉ l.map Prod.fst) : lookupAssoc l k = none := by
  induction l with
  | nil => rfl
  | cons a rest ih =>
    obtain ⟨k', v⟩ := a
    simp only [List.map_cons, List.mem_cons, not_or] at h
    have hne : ¬ (k' = k) := fun hk => h.1 hk.symm
    simp only [lookupAssoc, if_neg hne]
    exact ih h.2

/-- Lookup commutes with mapping a function over the values. -/
theorem lookupAssoc_map_value {α β : Type} (f : α → β) (l : List (String × α)) (k : String) :
    lookupAssoc (l.map (fun e => (e.1, f e.2))) k = (lookupAssoc l k).map f := by
  induction l with
  | nil => rfl
  | cons a rest ih =>
    obtain ⟨k', v⟩ := a
    by_cases h : k' = k <;> simp [lookupAssoc, h, ih]

/-- The discovery loop processes a concatenation in two stages. -/
theorem discoverLoop_append (kind : String) (as bs u : List (String × PluginClass))
    (w : List PluginConflictWarning) :
    discoverLoop kind (as ++ bs) u w =
      discoverLoop kind bs (discoverLoop kind as u w).1 (discoverLoop kind as u w).2 := by
  induction as generalizing u w with
  | nil => simp [discoverLoop]
  | cons a rest ih =>
    obtain ⟨n, c⟩ := a
    simp only [List.cons_append, discoverLoop]
    cases h : lookupAssoc u n <;> simp [h, ih]

/-- A block of entries whose names are new (mutually distinct and absent from
the dict so far) is appended verbatim and emits no warning. -/
theorem discoverLoop_fresh (kind : String) (as u : List (String × PluginClass))
    (w : List PluginConflictWarning)
    (hnodup : (as.map Prod.fst).Nodup)
    (hfresh : ∀ n ∈ as.map Prod.fst, lookupAssoc u n = none) :
    discoverLoop kind as u w = (u ++ as, w) := by
  induction as generalizing u with
  | nil => simp [discoverLoop]
  | cons a rest ih =>
    obtain ⟨n, c⟩ := a
    have h1 : lookupAssoc u n = none := hfresh n (by simp)
    simp only [List.map_cons, List.nodup_cons] at hnodup
    simp only [discoverLoop, h1]
    rw [ih (u ++ [(n, c)]) hnodup.2]
    · simp
    · intro m hm
      rw [lookupAssoc_append, hfresh m (by simp [hm])]
      have hne : n ≠ m := fun he => hnodup.1 (he ▸ hm)
      simp [lookupAssoc, hne]

/-! ## The claims -/

/-- C1: parsing the canonical append-only mode string "a" yields the
append-only flag set, but rendering those flags back produces "r", not "a":
the cascade in `io_mode_flags_to_string` has no append-only case, and on
POSIX the read-only test `flags & O_RDONLY == O_RDONLY` accepts everything.
So `io_mode_flags_to_string (io_mode_string_to_flags "a") false ≠ "a"` and
the claimed round-trip fails at s = "a". -/
theorem append_mode_roundtrip_broken :
    io_mode_string_to_flags "a" = Except.ok FLAGS_AONLY ∧
    io_mode_flags_to_string FLAGS_AONLY false = Except.ok "r" ∧
    "r" ≠ "a" :=
  ⟨rfl, rfl, by decide⟩

/-- C3: `io_mode_string_to_flags ""` raises `IndexError` (from `string[0]`),
not the invalid-mode `ValueError`; "q" and the conflicting markers "bt" do
raise `ValueError` as claimed.  The empty string is the divergence. -/
theorem invalid_mode_error_types :
    io_mode_string_to_flags "" =
      Except.error (PyError.indexError "string index out of range") ∧
    io_mode_string_to_flags "q" =
      Except.error (PyError.valueError
        ("Mode string must have r, w, or a as the first character: " ++ "q")) ∧
    io_mode_string_to_flags "bt" =
      Except.error (PyError.valueError
        ("Mode string specifies binary and text mode at the same time: " ++ "bt")) :=
  ⟨rfl, rfl, rfl⟩

/-- C4: the semantic axes of the parsed verbs.  `IOMode("r")` parses to flags
0 and its `read` property is `false` (on POSIX `O_RDONLY = 0`, so
`flags & O_RDONLY` is never truthy), contradicting the claim that read-only
mode reports read allowed; all the other claimed axes (r+, w+, a+ read and
write; w, a write-only) hold. -/
theorem iomode_readonly_read_falsy :
    IOMode.ofString "r" = Except.ok { flags := 0, is_binary := false } ∧
    IOMode.read { flags := 0, is_binary := false } = false ∧
    IOMode.write { flags := 0, is_binary := false } = false ∧
    IOMode.read { flags := FLAGS_RPLUS, is_binary := false } = true ∧
    IOMode.write { flags := FLAGS_RPLUS, is_binary := false } = true ∧
    IOMode.read { flags := FLAGS_WPLUS, is_binary := false } = true ∧
    IOMode.write { flags := FLAGS_WPLUS, is_binary := false } = true ∧
    IOMode.read { flags := FLAGS_APLUS, is_binary := false } = true ∧
    IOMode.write { flags := FLAGS_APLUS, is_binary := false } = true ∧
    IOMode.read { flags := FLAGS_WONLY, is_binary := false } = false ∧
    IOMode.write { flags := FLAGS_WONLY, is_binary := false } = true ∧
    IOMode.read { flags := FLAGS_AONLY, is_binary := false } = false ∧
    IOMode.write { flags := FLAGS_AONLY, is_binary := false } = true :=
  ⟨rfl, rfl, rfl, rfl, rfl, rfl, rfl, rfl, rfl, rfl, rfl, rfl, rfl⟩

/-- C5: in a discovery pass whose entry-point sequence holds exactly two
entries named `n` (classes `c1` then `c2`), with all other names distinct and
the later class not otherwise retained, the returned mapping binds `n` to an
instance constructed from the first-listed class `c1`, exactly one
`PluginConflictWarning` is emitted (and it records `c1` as existing and `c2`
as conflicting), and the later class `c2` is never instantiated. -/
theorem discover_plugins_first_wins
    (xs ys zs : List (String × PluginClass)) (n : String) (c1 c2 : PluginClass)
    (kind : String)
    (hnodup : ((xs ++ ys ++ zs).map Prod.fst).Nodup)
    (hn : n ∉ (xs ++ ys ++ zs).map Prod.fst)
    (hc : c2 ≠ c1 ∧ c2 ∉ (xs ++ ys ++ zs).map Prod.snd) :
    lookupAssoc (discover_plugins (xs ++ (n, c1) :: ys ++ (n, c2) :: zs) kind).plugins n
      = some (PluginInstance.mk c1) ∧
    (discover_plugins (xs ++ (n, c1) :: ys ++ (n, c2) :: zs) kind).warnings
      = [{ protocol := n, plugin_kind := kind,
           existing_class := c1, conflicting_class := c2 }] ∧
    c2 ∉ (discover_plugins (xs ++ (n, c1) :: ys ++ (n, c2) :: zs) kind).instantiated := by
  simp only [List.map_append, List.nodup_append, List.mem_append, not_or] at hnodup hn hc
  obtain ⟨⟨hAnd, hBnd, hAB⟩, hCnd, hABC⟩ := hnodup
  obtain ⟨⟨hnA, hnB⟩, hnC⟩ := hn
  obtain ⟨hce, ⟨hcA, hcB⟩, hcC⟩ := hc
  have hxs_none : lookupAssoc xs n = none := lookupAssoc_eq_none xs n hnA
  -- the block xs ++ (n, c1) :: ys consists of pairwise-new names
  have hblock : discoverLoop kind (xs ++ (n, c1) :: ys) [] [] = (xs ++ (n, c1) :: ys, []) := by
    have h := discoverLoop_fresh kind (xs ++ (n, c1) :: ys) [] []
      (by
        simp only [List.map_append, List.map_cons, List.nodup_append, List.nodup_cons]
        refine ⟨hAnd, ⟨hnB, hBnd⟩, ?_⟩
        intro m hm hm2
        rcases List.mem_cons.mp hm2 with he | hmB
        · exact hnA (he ▸ hm)
        · exact hAB hm hmB)
      (fun m _ => rfl)
    simpa using h
  have hlook1 : lookupAssoc (xs ++ (n, c1) :: ys) n = some c1 := by
    rw [lookupAssoc_append, hxs_none]
    simp [lookupAssoc]
  have hzs_fresh : ∀ m ∈ zs.map Prod.fst, lookupAssoc (xs ++ (n, c1) :: ys) m = none := by
    intro m hm
    rw [lookupAssoc_append,
      lookupAssoc_eq_none xs m (fun h => hABC (List.mem_append.mpr (Or.inl h)) hm)]
    have hmn : n ≠ m := fun he => hnC (he ▸ hm)
    simp only [lookupAssoc, if_neg hmn]
    exact lookupAssoc_eq_none ys m (fun h => hABC (List.mem_append.mpr (Or.inr h)) hm)
  have key : discoverLoop kind (xs ++ (n, c1) :: ys ++ (n, c2) :: zs) [] []
      = ((xs ++ (n, c1) :: ys) ++ zs,
         [{ protocol := n, plugin_kind := kind,
            existing_class := c1, conflicting_class := c2 }]) := by
    have hsplit : xs ++ (n, c1) :: ys ++ (n, c2) :: zs
        = (xs ++ (n, c1) :: ys) ++ ((n, c2) :: zs) := by simp
    rw [hsplit, discoverLoop_append, hblock]
    simp only [discoverLoop, hlook1]
    rw [discoverLoop_fresh kind zs _ _ hCnd hzs_fresh]
    simp
  refine ⟨?_, ?_, ?_⟩
  · simp only [discover_plugins, key]
    rw [lookupAssoc_map_value, lookupAssoc_append, hlook1]
    simp
  · simp only [discover_plugins, key]
  · simp only [discover_plugins, key]
    simp only [List.map_append, List.map_cons, List.mem_append, List.mem_cons, not_or]
    exact ⟨⟨hcA, hce, hcB⟩, hcC⟩

/-- Witness for C5: a concrete pass with two "gz" entries among three other
uniquely-named entries. -/
theorem discover_plugins_first_wins_witness :
    ((([("bz2", 10)] ++ [("xz", 11)] ++ [("zstd", 12)] :
        List (String × PluginClass)).map Prod.fst).Nodup ∧
     "gz" ∉ (([("bz2", 10)] ++ [("xz", 11)] ++ [("zstd", 12)] :
        List (String × PluginClass)).map Prod.fst) ∧
     ((2 : PluginClass) ≠ 1 ∧
      (2 : PluginClass) ∉ (([("bz2", 10)] ++ [("xz", 11)] ++ [("zstd", 12)] :
        List (String × PluginClass)).map Prod.snd))) ∧
    (lookupAssoc (discover_plugins
        ([("bz2", 10)] ++ ("gz", 1) :: [("xz", 11)] ++ ("gz", 2) :: [("zstd", 12)])
        "compression codec").plugins "gz" = some (PluginInstance.mk 1) ∧
     (discover_plugins
        ([("bz2", 10)] ++ ("gz", 1) :: [("xz", 11)] ++ ("gz", 2) :: [("zstd", 12)])
        "compression codec").warnings
       = [{ protocol := "gz", plugin_kind := "compression codec",
            existing_class := 1, conflicting_class := 2 }] ∧
     (2 : PluginClass) ∉ (discover_plugins
        ([("bz2", 10)] ++ ("gz", 1) :: [("xz", 11)] ++ ("gz", 2) :: [("zstd", 12)])
        "compression codec").instantiated) :=
  ⟨⟨by decide, by decide, by decide⟩,
   discover_plugins_first_wins [("bz2", 10)] [("xz", 11)] [("zstd", 12)] "gz" 1 2
     "compression codec" (by decide) (by decide) (by decide)⟩

/-- C6: `get_plugin` first triggers the lazy load — its final state is
exactly the state `load_registered_plugins(force=False)` produces, so an
already-loaded registry is left unchanged — and then raises
`NoSuchPluginError` carrying the requested name and the registry's namespace
exactly when the name is absent from the loaded mapping, returning the
stored instance otherwise. -/
theorem get_plugin_spec (reg : PluginRegistry) (eps : List (String × PluginClass)) (n : String) :
    (reg.get_plugin eps n).2 = (reg.load_registered_plugins eps false).1 ∧
    (reg.get_plugin eps n).1 =
      (match lookupAssoc (((reg.load_registered_plugins eps false).1).registry.getD []) n with
       | none => Except.error { name := n, entry_point := reg.nspace }
       | some p => Except.ok p) ∧
    (∀ m, reg.registry = some m → (reg.get_plugin eps n).2 = reg) := by
  rw [get_plugin_eq]
  refine ⟨rfl, rfl, ?_⟩
  intro m hm
  rw [load_of_some reg eps m hm]

/-- C7: once the registry is loaded (`some m`, including the empty mapping),
`load_registered_plugins(force=False)` is a no-op — the state is unchanged
and discovery is not re-invoked (the instrumentation Bool is `false`) —
while `force=True` always replaces the mapping with a fresh discovery
result. -/
theorem load_registered_plugins_idempotent
    (reg : PluginRegistry) (eps eps2 : List (String × PluginClass))
    (m : List (String × PluginInstance)) (h : reg.registry = some m) :
    reg.load_registered_plugins eps false = (reg, false) ∧
    (reg.load_registered_plugins eps2 true).1
      = { reg with registry := some (discover_plugins eps2 reg.plugin_type).plugins } ∧
    (reg.load_registered_plugins eps2 true).2 = true := by
  unfold PluginRegistry.load_registered_plugins
  simp [h]

/-- Witness for C7: a registry that is loaded but empty — distinct from the
unloaded `none` state — ignores a plain reload and honours a forced one. -/
theorem load_registered_plugins_idempotent_witness :
    emptyLoadedRegistry.registry = some [] ∧
    (emptyLoadedRegistry.load_registered_plugins [("gz", 3)] false
       = (emptyLoadedRegistry, false) ∧
     (emptyLoadedRegistry.load_registered_plugins [("gz", 3)] true).1
       = { emptyLoadedRegistry with
           registry := some (discover_plugins [("gz", 3)]
             emptyLoadedRegistry.plugin_type).plugins } ∧
     (emptyLoadedRegistry.load_registered_plugins [("gz", 3)] true).2 = true) :=
  ⟨rfl, load_registered_plugins_idempotent emptyLoadedRegistry
     [("gz", 3)] [("gz", 3)] [] rfl⟩

/-- C9: on POSIX `io_mode_flags_to_string` is total — it returns a string
for every flags value and never reaches its ValueError branch, because the
read-only test `flags &&& O_RDONLY = O_RDONLY` is `flags &&& 0 = 0`, true
for every value — and any flags matching none of the w+/w/a+/r+ patterns
falls through to "r", possibly suffixed with "x" and/or "b". -/
theorem io_mode_flags_to_string_total (flags : Nat) (binary : Bool) :
    ∃ s, io_mode_flags_to_string flags binary = Except.ok s ∧
      (flags &&& FLAGS_WPLUS ≠ FLAGS_WPLUS → flags &&& FLAGS_WONLY ≠ FLAGS_WONLY →
       flags &&& FLAGS_APLUS ≠ FLAGS_APLUS → flags &&& FLAGS_RPLUS ≠ FLAGS_RPLUS →
       (s = "r" ∨ s = "rx" ∨ s = "rb" ∨ s = "rxb")) := by
  by_cases h1 : flags &&& FLAGS_WPLUS = FLAGS_WPLUS
  · simp [io_mode_flags_to_string, h1]
    exact ⟨_, rfl⟩
  · by_cases h2 : flags &&& FLAGS_WONLY = FLAGS_WONLY
    · simp [io_mode_flags_to_string, h1, h2]
      exact ⟨_, rfl⟩
    · by_cases h3 : flags &&& FLAGS_APLUS = FLAGS_APLUS
      · simp [io_mode_flags_to_string, h1, h2, h3]
        exact ⟨_, rfl⟩
      · by_cases h4 : flags &&& FLAGS_RPLUS = FLAGS_RPLUS
        · simp [io_mode_flags_to_string, h1, h2, h3, h4]
          exact ⟨_, rfl⟩
        · have h0 : flags &&& FLAGS_RONLY = FLAGS_RONLY := by
            simp [FLAGS_RONLY, O_RDONLY]
          simp [io_mode_flags_to_string, h1, h2, h3, h4, h0, O_BINARY]
          cases binary <;> by_cases hx : flags &&& O_EXCL = 0 <;> simp [hx] <;>
            first
            | exact ⟨"r", rfl, Or.inl rfl⟩
            | exact ⟨"rx", rfl, Or.inr (Or.inl rfl)⟩
            | exact ⟨"rb", rfl, Or.inr (Or.inr (Or.inl rfl))⟩
            | exact ⟨"rxb", rfl, Or.inr (Or.inr (Or.inr rfl))⟩

/-- C10: in a single-threaded execution `has_plugin` answers `true` exactly
when `get_plugin` returns an instance rather than raising, both trigger the
same lazy load, and both leave the registry in the same post-load state. -/
theorem has_plugin_iff_get_plugin (reg : PluginRegistry) (eps : List (String × PluginClass))
    (n : String) :
    ((reg.has_plugin eps n).1 = true ↔ ∃ p, (reg.get_plugin eps n).1 = Except.ok p) ∧
    (reg.has_plugin eps n).2 = (reg.get_plugin eps n).2 ∧
    (reg.has_plugin eps n).2 = (reg.load_registered_plugins eps false).1 := by
  rw [get_plugin_eq]
  unfold PluginRegistry.has_plugin
  cases h : lookupAssoc (((reg.load_registered_plugins eps false).1).registry.getD []) n <;>
    simp [h]

/-- C2 counterexample: the registry maps the undotted name "gz" (the claim's
reading) and the URI ends in ".gz", yet `get_compression_plugin` returns
`none`, not that instance: the key looked up is the splitext extension
".gz", dot included. -/
theorem get_compression_plugin_undotted_cex :
    (get_compression_plugin
      { nspace := "compression", plugin_type := "compression codec",
        registry := some [("gz", PluginInstance.mk 7)] } [] "archive.gz").1 = none ∧
    ¬ ((get_compression_plugin
      { nspace := "compression", plugin_type := "compression codec",
        registry := some [("gz", PluginInstance.mk 7)] } [] "archive.gz").1
        = some (PluginInstance.mk 7)) :=
  ⟨rfl, by decide⟩

/-- C2 (amended): `get_compression_plugin` looks up the extension returned by
`posixpath.splitext`, which keeps the leading dot (".gz", not "gz"): when the
loaded mapping binds that dotted extension it returns exactly the stored
instance, and when the dotted extension is absent — `get_plugin` raises
`NoSuchPluginError` — it returns `none` rather than propagating the error. -/
theorem get_compression_plugin_dotted_extension
    (reg : PluginRegistry) (eps : List (String × PluginClass)) (uri_path : String)
    (m : List (String × PluginInstance))
    (hload : ((reg.load_registered_plugins eps false).1).registry = some m) :
    (∀ p, lookupAssoc m (splitext uri_path).2 = some p →
       (get_compression_plugin reg eps uri_path).1 = some p) ∧
    (lookupAssoc m (splitext uri_path).2 = none →
       (get_compression_plugin reg eps uri_path).1 = none) := by
  unfold get_compression_plugin
  simp only [get_plugin_eq]
  constructor
  · intro p hp
    simp [hload, hp]
  · intro hp
    simp [hload, hp]

/-- Witness for C2 (amended): a registry binding ".gz" resolves a ".gz" URI
to exactly that instance. -/
theorem get_compression_plugin_dotted_extension_witness :
    ((dottedRegistry.load_registered_plugins [] false).1).registry
       = some [(".gz", PluginInstance.mk 7)] ∧
    ((∀ p, lookupAssoc [(".gz", PluginInstance.mk 7)] (splitext "data/archive.gz").2 = some p →
        (get_compression_plugin dottedRegistry [] "data/archive.gz").1 = some p) ∧
     (lookupAssoc [(".gz", PluginInstance.mk 7)] (splitext "data/archive.gz").2 = none →
        (get_compression_plugin dottedRegistry [] "data/archive.gz").1 = none)) ∧
    (get_compression_plugin dottedRegistry [] "data/archive.gz").1
       = some (PluginInstance.mk 7) :=
  ⟨rfl,
   get_compression_plugin_dotted_extension dottedRegistry [] "data/archive.gz"
     [(".gz", PluginInstance.mk 7)] rfl,
   (get_compression_plugin_dotted_extension dottedRegistry [] "data/archive.gz"
     [(".gz", PluginInstance.mk 7)] rfl).1 (PluginInstance.mk 7) rfl⟩
